import Mathlib

/-
Verification of the goto-device-locator core: a shallow embedding of the
authenticated API client (app/services/goto_api_service.py), the auth
service (app/services/auth_service.py) and the session-handling route
logic (app.py), with theorems settling the specification claims.

Python values that can appear in JSON bodies, tokens and records are
modelled by the Json type below; Python None is Json.null.  Network and
token-endpoint behaviour is modelled by explicit oracles, so every
definition is executable.
-/

namespace GotoDeviceLocator

/-- JSON-like Python value (dicts modelled as association lists). -/
inductive Json where
  | null
  | bool (b : Bool)
  | num (n : Int)
  | str (s : String)
  | arr (elems : List Json)
  | obj (fields : List (String × Json))

/-- First binding of a key in a dict, as Python dict lookup. -/
def lookupField : List (String × Json) → String → Option Json
  | [], _ => none
  | (k, v) :: rest, key => if k = key then some v else lookupField rest key

/-- Python dict.get(key, default) on a field list. -/
def dictGet (fields : List (String × Json)) (key : String) (dflt : Json) : Json :=
  (lookupField fields key).getD dflt

/-- Emptiness of a string through its character list (kept
list-based so that concrete evaluations reduce definitionally). -/
def strEmpty (s : String) : Bool := s.data.isEmpty

/-- ASCII uppercasing of a string through its character list, modelling
the Python str.upper call on HTTP method names. -/
def strUpper (s : String) : String := String.mk (s.data.map Char.toUpper)

/-- Python truthiness of a Json value (None, False, 0, empty string,
empty list and empty dict are falsy). -/
def jsonFalsy : Json → Bool
  | .null => true
  | .bool b => !b
  | .num n => n == 0
  | .str s => strEmpty s
  | .arr xs => xs.isEmpty
  | .obj fs => fs.isEmpty

/-- Python truthiness of an optional string (request.args.get and
session.get results): None and the empty string are falsy. -/
def truthyStr : Option String → Bool
  | none => false
  | some s => !(strEmpty s)

/-- Negation of truthyStr, for "if not x" guards in the source. -/
def falsyStr (v : Option String) : Bool := !(truthyStr v)

/-- Python str() of a Json value, as used by f-string interpolation.
The list and dict placeholders are never exercised by any theorem. -/
def pyStr : Json → String
  | .str s => s
  | .null => "None"
  | .bool true => "True"
  | .bool false => "False"
  | .num n => toString n
  | .arr _ => "<list>"
  | .obj _ => "<dict>"

/-- Query-parameter value: the source puts strings and ints in params. -/
inductive PValue where
  | s (v : String)
  | n (v : Int)
deriving DecidableEq

/-- An HTTP request attempted by requests.request in the client. -/
structure Request where
  method : String
  url : String
  params : List (String × PValue)
deriving DecidableEq

/-- Outcome of one upstream HTTP request.  response carries the status,
the raw text, and the result of response.json() (none when the body does
not parse); transportError models requests.exceptions.RequestException;
otherError models any other exception from the request call. -/
inductive Outcome where
  | response (status : Int) (text : String) (json : Option Json)
  | transportError (msg : String)
  | otherError (msg : String)

/-- The upstream network, as an oracle from requests to outcomes. -/
abbrev Net := Request → Outcome

/-- Error-level log entries emitted by the client (info-level logging is
not modelled). -/
inductive LogEntry where
  | errNoToken
  | errAuthFailed
  | errStatus (status : Int) (body : String)
  | errRequestExc (msg : String)
  | errUnexpected (msg : String)
  | errFailedToGetLocations
deriving DecidableEq

/-- Python exceptions that the embedded code can raise. -/
inductive PyExn where
  | typeError (msg : String)
  | attributeError (msg : String)
  | authenticationError (msg : String)
deriving DecidableEq

/-- Result of running a piece of the client: the returned value or the
exception it raises, plus the network requests attempted and the
error log entries written along the way. -/
structure Effect (α : Type) where
  result : Except PyExn α
  calls : List Request
  logs : List LogEntry

/-- Sequencing of effects: a raised exception short-circuits, calls and
logs accumulate in order. -/
def Effect.bind {α β : Type} (x : Effect α) (f : α → Effect β) : Effect β :=
  match x.result with
  | .error e => ⟨.error e, x.calls, x.logs⟩
  | .ok a =>
    let y := f a
    ⟨y.result, x.calls ++ y.calls, x.logs ++ y.logs⟩

/-- Effect that raises an exception. -/
def Effect.raise {α : Type} (e : PyExn) : Effect α := ⟨.error e, [], []⟩

/-- Config.GOTO_VOICE_ADMIN_API from app/config.py. -/
def baseUrl : String := "https://api.goto.com/voice-admin/v1"

/-- The access_token argument at a call site of the internal request
helper: missing models a call that omits the required positional
argument (a TypeError in Python); supplied carries the Python value. -/
inductive TokenArg where
  | missing
  | supplied (v : Json)

/-- The request built by the helper: method.upper() and the base URL
joined with the endpoint stripped of leading slashes. -/
def mkRequest (method endpoint : String) (params : List (String × PValue)) : Request :=
  ⟨strUpper method, baseUrl ++ "/" ++ String.mk (endpoint.data.dropWhile (· = '/')), params⟩

/-- GoToAPIService._make_authenticated_request (goto_api_service.py
lines 30-73).  A call omitting the required access_token argument raises
TypeError before anything runs; a falsy token logs and returns None with
no network call; otherwise one request is attempted and a 200 returns the
parsed body, any other status or any exception is logged and normalized
to None. -/
def makeAuthenticatedRequest (net : Net) (method endpoint : String)
    (access_token : TokenArg) (params : List (String × PValue)) :
    Effect (Option Json) :=
  match access_token with
  | .missing =>
    ⟨.error (.typeError "missing 1 required positional argument: access_token"), [], []⟩
  | .supplied tok =>
    if jsonFalsy tok then ⟨.ok none, [], [.errNoToken]⟩
    else
      let req := mkRequest method endpoint params
      match net req with
      | .response status text json =>
        if status = 200 then
          match json with
          | some j => ⟨.ok (some j), [req], []⟩
          | none => ⟨.ok none, [req], [.errUnexpected text]⟩
        else if status = 401 then ⟨.ok none, [req], [.errAuthFailed]⟩
        else ⟨.ok none, [req], [.errStatus status text]⟩
      | .transportError msg => ⟨.ok none, [req], [.errRequestExc msg]⟩
      | .otherError msg => ⟨.ok none, [req], [.errUnexpected msg]⟩

/-- Appends the pageMarker parameter exactly as the source does: only
when page_marker is truthy (non-None and non-empty). -/
def withMarker (params : List (String × PValue)) (pageMarker : Option String) :
    List (String × PValue) :=
  match pageMarker with
  | some m => if strEmpty m then params else params ++ [("pageMarker", .s m)]
  | none => params

/-- GoToAPIService.get_locations (lines 89-111); pageSize is an optional
call argument defaulting to 50, pageMarker defaults to None. -/
def getLocations (net : Net) (accountKey : String) (tok : Json)
    (pageSize : Option Int) (pageMarker : Option String) : Effect (Option Json) :=
  let params := withMarker
    [("accountKey", .s accountKey), ("pageSize", .n (pageSize.getD 50))] pageMarker
  makeAuthenticatedRequest net "GET" "locations" (.supplied tok) params

/-- GoToAPIService.get_devices (lines 113-135). -/
def getDevices (net : Net) (accountKey : String) (tok : Json)
    (pageSize : Option Int) (pageMarker : Option String) : Effect (Option Json) :=
  let params := withMarker
    [("accountKey", .s accountKey), ("pageSize", .n (pageSize.getD 50))] pageMarker
  makeAuthenticatedRequest net "GET" "devices" (.supplied tok) params

/-- GoToAPIService.get_device_details (lines 137-148). -/
def getDeviceDetails (net : Net) (deviceId : String) (tok : Json) : Effect (Option Json) :=
  makeAuthenticatedRequest net "GET" ("devices/" ++ deviceId) (.supplied tok) []

/-- GoToAPIService.get_location_devices (lines 150-171).  The source
calls the request helper without its required access_token argument, so
the token argument here is TokenArg.missing. -/
def getLocationDevices (net : Net) (locationId : String)
    (pageSize : Option Int) (pageMarker : Option String) : Effect (Option Json) :=
  let params := withMarker [("pageSize", .n (pageSize.getD 50))] pageMarker
  makeAuthenticatedRequest net "GET" ("locations/" ++ locationId ++ "/devices")
    .missing params

/-- GoToAPIService.get_location_users (lines 173-194), with the same
missing access_token argument as get_location_devices. -/
def getLocationUsers (net : Net) (locationId : String)
    (pageSize : Option Int) (pageMarker : Option String) : Effect (Option Json) :=
  let params := withMarker [("pageSize", .n (pageSize.getD 50))] pageMarker
  makeAuthenticatedRequest net "GET" ("locations/" ++ locationId ++ "/users")
    .missing params

/-- GoToAPIService.get_extensions (lines 196-219). -/
def getExtensions (net : Net) (accountKey : String) (tok : Json)
    (pageSize : Option Int) (pageMarker : Option String) : Effect (Option Json) :=
  let params := withMarker
    [("accountKey", .s accountKey), ("pageSize", .n (pageSize.getD 50))] pageMarker
  makeAuthenticatedRequest net "GET" "extensions" (.supplied tok) params

/-- GoToAPIService.get_phone_numbers (lines 268-291). -/
def getPhoneNumbers (net : Net) (accountKey : String) (tok : Json)
    (pageSize : Option Int) (pageMarker : Option String) : Effect (Option Json) :=
  let params := withMarker
    [("accountKey", .s accountKey), ("pageSize", .n (pageSize.getD 50))] pageMarker
  makeAuthenticatedRequest net "GET" "phone-numbers" (.supplied tok) params

/-- GoToAPIService.get_phone_number_details (lines 293-305). -/
def getPhoneNumberDetails (net : Net) (phoneNumberId : String) (tok : Json) :
    Effect (Option Json) :=
  makeAuthenticatedRequest net "GET" ("phone-numbers/" ++ phoneNumberId) (.supplied tok) []

/-- GoToAPIService.get_device_models (lines 307-328). -/
def getDeviceModels (net : Net) (tok : Json)
    (pageSize : Option Int) (pageMarker : Option String) : Effect (Option Json) :=
  let params := withMarker [("pageSize", .n (pageSize.getD 50))] pageMarker
  makeAuthenticatedRequest net "GET" "device-models" (.supplied tok) params

/-- GoToAPIService.get_device_button_configuration (lines 330-342). -/
def getDeviceButtonConfiguration (net : Net) (deviceId : String) (tok : Json) :
    Effect (Option Json) :=
  makeAuthenticatedRequest net "GET" ("devices/" ++ deviceId ++ "/buttons-configuration")
    (.supplied tok) []

/-- GoToAPIService.reboot_device (lines 344-356). -/
def rebootDevice (net : Net) (deviceId : String) (tok : Json) : Effect (Option Json) :=
  makeAuthenticatedRequest net "POST" ("devices/" ++ deviceId ++ "/reboot") (.supplied tok) []

/-- GoToAPIService.resync_device (lines 358-370). -/
def resyncDevice (net : Net) (deviceId : String) (tok : Json) : Effect (Option Json) :=
  makeAuthenticatedRequest net "POST" ("devices/" ++ deviceId ++ "/resync") (.supplied tok) []

/-- GoToAPIService.get_extension_details (lines 372-384). -/
def getExtensionDetails (net : Net) (extensionId : String) (tok : Json) :
    Effect (Option Json) :=
  makeAuthenticatedRequest net "GET" ("extensions/" ++ extensionId) (.supplied tok) []

/-- One record of the devices-by-location join
(search_devices_by_location, lines 253-263). -/
structure DeviceRecord where
  device_id : Json
  device_status : Json
  license_key : Json
  location_id : Json
  location_name : Json
  location_address : Json
  used_for_emergency : Json

/-- The record built for one device of one location (loop body of
search_devices_by_location, lines 254-262): .get defaults are None for
the device fields, and the fixed fallbacks for the location fields. -/
def deviceInfo (locFields devFields : List (String × Json)) : DeviceRecord :=
  { device_id := dictGet devFields "id" Json.null
  , device_status := dictGet devFields "status" Json.null
  , license_key := dictGet devFields "licenseKey" Json.null
  , location_id := dictGet locFields "id" Json.null
  , location_name := dictGet locFields "name" (Json.str "Unknown Location")
  , location_address := dictGet locFields "address" (Json.obj [])
  , used_for_emergency := dictGet locFields "usedForEmergencyServices" (Json.bool false) }

/-- Inner device loop of search_devices_by_location: one record per
device, raising AttributeError on .get of a non-dict element. -/
def buildRecords (locFields : List (String × Json)) :
    List Json → Except PyExn (List DeviceRecord)
  | [] => .ok []
  | d :: rest =>
    match d with
    | .obj df =>
      match buildRecords locFields rest with
      | .ok recs => .ok (deviceInfo locFields df :: recs)
      | .error e => .error e
    | _ => .error (.attributeError "get called on a non-dict device value")

/-- The guard on the per-location fetch result: devices_response is
truthy and contains the key "items".  Truthiness and membership on a
non-dict response are not exercised by the upstream shape and are
modelled as failing the guard. -/
def hasItems : Option Json → Bool
  | some (.obj fs) => (!fs.isEmpty) && (lookupField fs "items").isSome
  | _ => false

/-- Per-location loop of search_devices_by_location (lines 243-263):
read id and name from the location dict, fetch its devices with
page_size 100, and append a record per device when the response passes
the items guard.  The device fetch goes through get_location_devices and
therefore inherits its missing access_token argument. -/
def locationLoop (net : Net) : List Json → Effect (List DeviceRecord)
  | [] => ⟨.ok [], [], []⟩
  | loc :: rest =>
    match loc with
    | .obj lf =>
      let locationId := dictGet lf "id" Json.null
      (getLocationDevices net (pyStr locationId) (some 100) none).bind fun devResp =>
        let here : Except PyExn (List DeviceRecord) :=
          if hasItems devResp then
            match devResp with
            | some (.obj fs) =>
              match lookupField fs "items" with
              | some (.arr devs) => buildRecords lf devs
              | some _ => .error (.typeError "items value is not a list")
              | none => .ok []
            | _ => .ok []
          else .ok []
        match here with
        | .error e => ⟨.error e, [], []⟩
        | .ok recs =>
          (locationLoop net rest).bind fun more => ⟨.ok (recs ++ more), [], []⟩
    | _ => ⟨.error (.attributeError "get called on a non-dict location value"), [], []⟩

/-- GoToAPIService.search_devices_by_location (lines 221-266): fetch up
to 100 locations, then run the per-location loop; a missing or
items-less locations response is logged and yields the empty list.
Membership on a non-dict locations response is not exercised and is
modelled as lacking the items key. -/
def searchDevicesByLocation (net : Net) (accountKey : String) (tok : Json) :
    Effect (List DeviceRecord) :=
  (getLocations net accountKey tok (some 100) none).bind fun locResp =>
    match locResp with
    | some (.obj fs) =>
      if fs.isEmpty then ⟨.ok [], [], [.errFailedToGetLocations]⟩
      else
        match lookupField fs "items" with
        | some (.arr locs) => locationLoop net locs
        | some _ => Effect.raise (.typeError "items value is not a list")
        | none => ⟨.ok [], [], [.errFailedToGetLocations]⟩
    | _ => ⟨.ok [], [], [.errFailedToGetLocations]⟩

/-- Outcome of one POST to the identity-provider token endpoint for a
given authorization code: the token dict, or the failure message of the
underlying fetch. -/
abbrev TokenEndpoint := String → Except String Json

set_option linter.unusedVariables false in
/-- AuthService.exchange_code_for_token (auth_service.py lines 57-87):
wraps any failure of the token fetch in AuthenticationError.  The state
argument is stored on the OAuth2Session but, with the code passed
directly and no authorization_response, it is not validated against
anything, so it does not influence the outcome. -/
def exchangeCodeForToken (endpoint : TokenEndpoint) (code : String)
    (state : Option String) : Except PyExn Json :=
  match endpoint code with
  | .ok token => .ok token
  | .error e => .error (.authenticationError ("Failed to exchange code for token: " ++ e))

/-- Result of the token liveness probe: valid says what is_token_valid
returns, probeCalled whether the network probe was attempted. -/
structure ProbeResult where
  valid : Bool
  probeCalled : Bool

/-- The guard condition of is_token_valid for the key check: a non-dict
token has no access_token key (the string-containment corner of the
Python in operator is not exercised). -/
def tokenLacksAccessToken : Json → Bool
  | .obj fs => (lookupField fs "access_token").isNone
  | _ => true

/-- AuthService.is_token_valid (auth_service.py lines 116-143): a falsy
token or one lacking access_token is invalid with no network call;
otherwise one probe request is made and only HTTP 200 counts as valid,
any exception as invalid.  The probe outcome is an oracle: some status,
or none for an exception. -/
def isTokenValid (probe : Option Int) (token : Json) : ProbeResult :=
  if jsonFalsy token || tokenLacksAccessToken token then ⟨false, false⟩
  else
    match probe with
    | some status => ⟨status == 200, true⟩
    | none => ⟨false, true⟩

/-- The keys of the Flask session that the core reads and writes
(app.py): the token dict, the account key, and the in-flight OAuth
state. -/
structure Session where
  access_token : Option Json
  account_key : Option String
  oauth_state : Option String

/-- is_authenticated (app.py lines 40-54): the session holds an
access_token entry that is a dict containing the key access_token. -/
def isAuthenticated (s : Session) : Bool :=
  match s.access_token with
  | some (.obj fields) => (lookupField fields "access_token").isSome
  | some _ => false
  | none => false

/-- logout (app.py lines 126-131): session.clear() empties every key. -/
def logout (_ : Session) : Session := ⟨none, none, none⟩

/-- Python or on two optional strings: the first operand when truthy,
otherwise the second. -/
def pyOrStr (a b : Option String) : Option String :=
  if truthyStr a then a else b

/-- Account-key resolution of the locations route (app.py lines
166-174; the devices route, lines 204-212, is textually identical):
resolve session.get or args.get, then store the resolved value back into
the session when the URL parameter is truthy.  Returns the resolved key
and the session value after the handler. -/
def resolveAccountKey (sessionKey urlKey : Option String) :
    Option String × Option String :=
  let accountKey := pyOrStr sessionKey urlKey
  if truthyStr urlKey then (accountKey, accountKey)
  else (accountKey, sessionKey)

/-- What the locations route hands back to the browser. -/
inductive PageResult where
  | redirectIndex (flash : String)
  | redirectDashboard (flash : String)
  | page (items : Json) (nextPageMarker : Json) (accountKey : String)

/-- locations route (app.py lines 159-195): authentication guard,
account-key resolution, session update, then the list fetch with the
session token; a None fetch result or any exception degrades to a
dashboard redirect.  The branches for a session token that is not a dict
with an access_token key are unreachable under the guard and map to the
except-clause redirect. -/
def locationsRoute (net : Net) (s : Session) (urlAccountKey : Option String) :
    PageResult × Session :=
  if isAuthenticated s then
    let accountKey := pyOrStr s.account_key urlAccountKey
    if falsyStr accountKey then
      (.redirectDashboard "Please set your account key in the dashboard first.", s)
    else
      let s1 := if truthyStr urlAccountKey then { s with account_key := accountKey } else s
      match s.access_token with
      | some (.obj tokFields) =>
        match lookupField tokFields "access_token" with
        | some tokVal =>
          let eff := getLocations net (accountKey.getD "") tokVal none none
          match eff.result with
          | .ok none => (.redirectDashboard "Failed to fetch locations. Please try again.", s1)
          | .ok (some (.obj dfs)) =>
            (.page (dictGet dfs "items" (Json.arr []))
              (dictGet dfs "nextPageMarker" Json.null) (accountKey.getD ""), s1)
          | .ok (some _) => (.redirectDashboard "Error fetching locations", s1)
          | .error _ => (.redirectDashboard "Error fetching locations", s1)
        | none => (.redirectDashboard "Error fetching locations", s1)
      | _ => (.redirectDashboard "Error fetching locations", s1)
  else (.redirectIndex "Please authenticate first.", s)

/-- Query arguments of the OAuth callback request. -/
structure CallbackArgs where
  code : Option String
  state : Option String
  error : Option String

/-- What the callback hands back to the browser. -/
inductive CallbackResult where
  | redirectIndex (flash : String)
  | redirectDashboard (flash : String)
deriving DecidableEq

/-- Observable outcome of the callback handler: the response, the
session afterwards, whether the code exchange was attempted, and whether
an AuthenticationError was raised while handling the request (the
handler catches it, so it never propagates). -/
structure CallbackOutcome where
  result : CallbackResult
  session : Session
  exchangeAttempted : Bool
  raisedAuthError : Bool

/-- auth_callback (app.py lines 82-124): provider error and missing code
redirect immediately; a missing session state or a state mismatch
redirects with the mismatch flash before any exchange; otherwise the
code is exchanged, storing the token and popping the state on success,
and any exception from the exchange is caught and turned into an error
redirect with the session unchanged. -/
def authCallback (endpoint : TokenEndpoint) (s : Session) (args : CallbackArgs) :
    CallbackOutcome :=
  if truthyStr args.error then
    { result := .redirectIndex ("Authentication error: " ++ args.error.getD "")
    , session := s, exchangeAttempted := false, raisedAuthError := false }
  else if falsyStr args.code then
    { result := .redirectIndex "Authentication was cancelled or failed."
    , session := s, exchangeAttempted := false, raisedAuthError := false }
  else if falsyStr s.oauth_state = true ∨ args.state ≠ s.oauth_state then
    { result := .redirectIndex "Authentication failed due to state mismatch. Please try again."
    , session := s, exchangeAttempted := false, raisedAuthError := false }
  else
    match exchangeCodeForToken endpoint (args.code.getD "") args.state with
    | .ok token =>
      { result := .redirectDashboard "Authentication successful!"
      , session := { s with access_token := some token, oauth_state := none }
      , exchangeAttempted := true, raisedAuthError := false }
    | .error (.authenticationError _) =>
      { result := .redirectIndex "Authentication failed. Please try again."
      , session := s, exchangeAttempted := true, raisedAuthError := true }
    | .error _ =>
      { result := .redirectIndex "Authentication failed. Please try again."
      , session := s, exchangeAttempted := true, raisedAuthError := false }

/-
Test fixtures: concrete oracles used by counterexamples and witnesses.
-/

/-- A network where every request fails at the transport layer. -/
def netDown : Net := fun _ => .transportError "connection error"

/-- The example list body of the specification. -/
def exampleBody : Json :=
  .obj [("items", .arr [.obj [("id", .str "1")]]), ("nextPageMarker", .str "abc")]

/-- A network answering every request with HTTP 200 and the example
body. -/
def net200 : Net := fun _ => .response 200 "" (some exampleBody)

/-- A network answering every request with HTTP 500. -/
def net500 : Net := fun _ => .response 500 "server error" none

/-- Location A of the join scenario, carrying one device upstream. -/
def locA : Json := .obj [("id", .str "loc-A"), ("name", .str "Location A")]

/-- Location B of the join scenario, whose device fetch would fail. -/
def locB : Json := .obj [("id", .str "loc-B"), ("name", .str "Location B")]

/-- A network whose locations endpoint returns locations A and B and
whose every other endpoint fails at the transport layer. -/
def netAB : Net := fun req =>
  if req.url = baseUrl ++ "/locations" then
    .response 200 "" (some (.obj [("items", .arr [locA, locB])]))
  else .transportError "connection error"

/-- A token endpoint that succeeds for every code. -/
def endpointOk : TokenEndpoint :=
  fun _ => .ok (Json.obj [("access_token", Json.str "tok-value")])

/-- A session holding an issued OAuth state and nothing else. -/
def mismatchSession : Session :=
  { access_token := none, account_key := none, oauth_state := some "state-issued" }

/-- Callback arguments carrying a code and a state different from the
issued one. -/
def mismatchArgs : CallbackArgs :=
  { code := some "code-1", state := some "state-other", error := none }

/-- Helper: with a truthy token, the request helper attempts exactly the
one request it built, whatever the outcome. -/
theorem makeAuthenticatedRequest_calls (net : Net) (method endpoint : String)
    (tok : Json) (params : List (String × PValue)) (htok : jsonFalsy tok = false) :
    (makeAuthenticatedRequest net method endpoint (.supplied tok) params).calls
      = [mkRequest method endpoint params] := by
  simp only [makeAuthenticatedRequest, htok, Bool.false_eq_true, if_false]
  cases hnet : net (mkRequest method endpoint params) with
  | response status text json =>
    by_cases h200 : status = 200
    · cases json <;> simp [h200]
    · by_cases h401 : status = 401 <;> simp [h200, h401]
  | transportError msg => simp
  | otherError msg => simp

/-- C1 evidence: get_location_devices cannot honour the claim — its
internal call to the request helper omits the required access_token
argument, so every call raises TypeError instead of returning the
absent value, attempting no network call (get_location_users has the
same defect). -/
theorem c1_get_location_devices_raises :
    (getLocationDevices netDown "loc-1" none none).result
      = Except.error (PyExn.typeError "missing 1 required positional argument: access_token")
    ∧ (getLocationDevices netDown "loc-1" none none).calls = [] :=
  ⟨rfl, rfl⟩

/-- C2 evidence: with two locations A and B returned upstream, the
devices-by-location join raises TypeError out of the first per-location
device fetch (whose internal call omits the required access_token
argument), producing no records; only the single locations request is
ever attempted. -/
theorem c2_join_raises_on_first_location :
    (searchDevicesByLocation netAB "acct-1" (Json.str "tok-1")).result
      = Except.error (PyExn.typeError "missing 1 required positional argument: access_token")
    ∧ (searchDevicesByLocation netAB "acct-1" (Json.str "tok-1")).calls.length = 1 :=
  ⟨rfl, rfl⟩

/-- C3 counterexample: with the AccountKey present both in the session
and as a URL parameter, the session value — not the URL parameter —
is resolved and kept, so the claimed URL-parameter-wins policy is false. -/
theorem c3_session_key_wins_counterexample :
    (resolveAccountKey (some "session-key") (some "url-key")).1 = some "session-key"
    ∧ (resolveAccountKey (some "session-key") (some "url-key")).2 = some "session-key"
    ∧ (resolveAccountKey (some "session-key") (some "url-key")).1 ≠ some "url-key" :=
  ⟨rfl, rfl, by decide⟩

/-- C3 amended: the session value wins whenever it is truthy (the
session is rewritten with its own value when a URL parameter is also
present); the URL parameter is used and stored only when the session
holds no truthy AccountKey. -/
theorem c3_account_key_resolution (sk uk : Option String) :
    (truthyStr sk = true → resolveAccountKey sk uk = (sk, sk))
    ∧ (truthyStr sk = false → truthyStr uk = true → resolveAccountKey sk uk = (uk, uk)) := by
  constructor
  · intro h
    cases huk : truthyStr uk <;> simp [resolveAccountKey, pyOrStr, h, huk]
  · intro h huk
    simp [resolveAccountKey, pyOrStr, h, huk]

/-- C3 witness: concrete instance of the amended resolution policy. -/
theorem c3_account_key_resolution_witness :
    truthyStr (some "session-key") = true
    ∧ resolveAccountKey (some "session-key") (some "url-key")
        = (some "session-key", some "session-key") :=
  ⟨rfl, (c3_account_key_resolution (some "session-key") (some "url-key")).1 rfl⟩

/-- C4 counterexample: on a state mismatch the callback rejects the
login with an error redirect; no AuthenticationError is raised and the
code exchange is never attempted, so the claimed failure mode is false. -/
theorem c4_state_mismatch_no_auth_error :
    (authCallback endpointOk mismatchSession mismatchArgs).raisedAuthError = false
    ∧ (authCallback endpointOk mismatchSession mismatchArgs).exchangeAttempted = false
    ∧ (authCallback endpointOk mismatchSession mismatchArgs).result
        = CallbackResult.redirectIndex
            "Authentication failed due to state mismatch. Please try again." :=
  ⟨rfl, rfl, rfl⟩

/-- C4 amended: when the received state differs from the issued one,
the callback rejects the login with the mismatch error redirect before
any code exchange, leaves the session unchanged (no token stored), and
raises no AuthenticationError; AuthenticationError arises only from a
failing code exchange itself. -/
theorem c4_state_mismatch_rejected_without_raise (endpoint : TokenEndpoint)
    (s : Session) (args : CallbackArgs) (st : String)
    (herr : truthyStr args.error = false)
    (hcode : falsyStr args.code = false)
    (hst : s.oauth_state = some st)
    (hmis : args.state ≠ some st) :
    authCallback endpoint s args
      = { result := .redirectIndex
            "Authentication failed due to state mismatch. Please try again."
        , session := s, exchangeAttempted := false, raisedAuthError := false } := by
  have hcond : falsyStr s.oauth_state = true ∨ args.state ≠ s.oauth_state :=
    Or.inr (by rw [hst]; exact hmis)
  simp [authCallback, herr, hcode, hcond]

/-- C4 witness: the amended statement at the concrete mismatch input. -/
theorem c4_state_mismatch_witness :
    truthyStr mismatchArgs.error = false
    ∧ falsyStr mismatchArgs.code = false
    ∧ mismatchSession.oauth_state = some "state-issued"
    ∧ mismatchArgs.state ≠ some "state-issued"
    ∧ authCallback endpointOk mismatchSession mismatchArgs
        = { result := .redirectIndex
              "Authentication failed due to state mismatch. Please try again."
          , session := mismatchSession, exchangeAttempted := false
          , raisedAuthError := false } :=
  ⟨rfl, rfl, rfl, by decide,
    c4_state_mismatch_rejected_without_raise endpointOk mismatchSession mismatchArgs
      "state-issued" rfl rfl rfl (by decide)⟩

/-- C5: with a truthy token, any non-200 upstream response and any
transport or other exception is normalized to the absent-value result
with at least one error log entry, never a raised exception. -/
theorem c5_upstream_failure_normalized (net : Net) (method endpoint : String)
    (tok : Json) (params : List (String × PValue))
    (htok : jsonFalsy tok = false) :
    (∀ status text json,
        net (mkRequest method endpoint params) = .response status text json →
        status ≠ 200 →
        (makeAuthenticatedRequest net method endpoint (.supplied tok) params).result
            = Except.ok none
        ∧ (makeAuthenticatedRequest net method endpoint (.supplied tok) params).logs ≠ [])
    ∧ (∀ msg,
        net (mkRequest method endpoint params) = .transportError msg →
        (makeAuthenticatedRequest net method endpoint (.supplied tok) params).result
            = Except.ok none
        ∧ (makeAuthenticatedRequest net method endpoint (.supplied tok) params).logs ≠ [])
    ∧ (∀ msg,
        net (mkRequest method endpoint params) = .otherError msg →
        (makeAuthenticatedRequest net method endpoint (.supplied tok) params).result
            = Except.ok none
        ∧ (makeAuthenticatedRequest net method endpoint (.supplied tok) params).logs ≠ []) := by
  refine ⟨?_, ?_, ?_⟩
  · intro status text json h hne
    by_cases h401 : status = 401 <;>
      simp [makeAuthenticatedRequest, htok, h, hne, h401]
  · intro msg h
    simp [makeAuthenticatedRequest, htok, h]
  · intro msg h
    simp [makeAuthenticatedRequest, htok, h]

/-- C5 witness: an HTTP 500 upstream yields the absent value with a
logged diagnostic. -/
theorem c5_upstream_failure_witness :
    jsonFalsy (Json.str "t") = false
    ∧ ((makeAuthenticatedRequest net500 "GET" "devices"
          (.supplied (Json.str "t")) []).result = Except.ok none
      ∧ (makeAuthenticatedRequest net500 "GET" "devices"
          (.supplied (Json.str "t")) []).logs ≠ []) :=
  ⟨rfl, (c5_upstream_failure_normalized net500 "GET" "devices" (Json.str "t") [] rfl).1
      500 "server error" none rfl (by decide)⟩

/-- C6: with a truthy token, an upstream HTTP 200 returns the parsed
JSON body exactly as received. -/
theorem c6_http200_returns_body (net : Net) (method endpoint : String)
    (tok : Json) (params : List (String × PValue)) (text : String) (body : Json)
    (htok : jsonFalsy tok = false)
    (h : net (mkRequest method endpoint params) = .response 200 text (some body)) :
    (makeAuthenticatedRequest net method endpoint (.supplied tok) params).result
      = Except.ok (some body) := by
  simp [makeAuthenticatedRequest, htok, h]

/-- C6 witness: the example body of the specification comes back
unchanged. -/
theorem c6_http200_witness :
    jsonFalsy (Json.str "tok") = false
    ∧ (makeAuthenticatedRequest net200 "GET" "locations"
        (.supplied (Json.str "tok")) []).result = Except.ok (some exampleBody) :=
  ⟨rfl, c6_http200_returns_body net200 "GET" "locations" (Json.str "tok") [] ""
      exampleBody rfl rfl⟩

/-- C7: a falsy token (None) or a token dict lacking the access_token
key is reported invalid without any network probe. -/
theorem c7_invalid_token_no_probe (probe : Option Int) :
    isTokenValid probe Json.null = ⟨false, false⟩
    ∧ ∀ fs : List (String × Json), lookupField fs "access_token" = none →
        isTokenValid probe (Json.obj fs) = ⟨false, false⟩ := by
  constructor
  · rfl
  · intro fs h
    simp [isTokenValid, tokenLacksAccessToken, h]

/-- C7 witness: the empty token dict is invalid with no probe. -/
theorem c7_invalid_token_witness :
    lookupField ([] : List (String × Json)) "access_token" = none
    ∧ isTokenValid (some 200) (Json.obj []) = ⟨false, false⟩ :=
  ⟨rfl, (c7_invalid_token_no_probe (some 200)).2 [] rfl⟩

/-- C8: logout clears the token, the account key and the in-flight
OAuth state, the cleared session is unauthenticated, and a subsequent
authenticated-only operation (the locations route) is rejected with the
authenticate-first redirect. -/
theorem c8_logout_clears_and_rejects (s : Session) (net : Net)
    (urlKey : Option String) :
    (logout s).access_token = none
    ∧ (logout s).account_key = none
    ∧ (logout s).oauth_state = none
    ∧ isAuthenticated (logout s) = false
    ∧ locationsRoute net (logout s) urlKey
        = (PageResult.redirectIndex "Please authenticate first.", logout s) :=
  ⟨rfl, rfl, rfl, rfl, rfl⟩

/-- C9 counterexample: a supplied empty-string page_marker is dropped —
the request carries no pageMarker parameter although a marker was
supplied, so inclusion is not exactly "when supplied". -/
theorem c9_empty_marker_dropped :
    (getLocations netDown "acct-1" (Json.str "tok-1") none (some "")).calls
      = [⟨"GET", baseUrl ++ "/locations",
          [("accountKey", .s "acct-1"), ("pageSize", .n 50)]⟩] :=
  rfl

/-- C9 amended: with no page_size supplied the request carries pageSize
50, and the pageMarker parameter is included exactly when a non-empty
page_marker is supplied (an empty-string marker is treated as absent),
forwarded unmodified — for both get_locations and get_devices. -/
theorem c9_pagination_params (net : Net) (ak : String) (tok : Json)
    (htok : jsonFalsy tok = false) :
    ((getLocations net ak tok none none).calls
        = [⟨"GET", baseUrl ++ "/locations",
            [("accountKey", .s ak), ("pageSize", .n 50)]⟩]
      ∧ (getDevices net ak tok none none).calls
        = [⟨"GET", baseUrl ++ "/devices",
            [("accountKey", .s ak), ("pageSize", .n 50)]⟩])
    ∧ ((getLocations net ak tok none (some "")).calls
        = [⟨"GET", baseUrl ++ "/locations",
            [("accountKey", .s ak), ("pageSize", .n 50)]⟩]
      ∧ (getDevices net ak tok none (some "")).calls
        = [⟨"GET", baseUrl ++ "/devices",
            [("accountKey", .s ak), ("pageSize", .n 50)]⟩])
    ∧ (∀ m : String, strEmpty m = false →
        (getLocations net ak tok none (some m)).calls
          = [⟨"GET", baseUrl ++ "/locations",
              [("accountKey", .s ak), ("pageSize", .n 50), ("pageMarker", .s m)]⟩]
        ∧ (getDevices net ak tok none (some m)).calls
          = [⟨"GET", baseUrl ++ "/devices",
              [("accountKey", .s ak), ("pageSize", .n 50), ("pageMarker", .s m)]⟩]) := by
  refine ⟨⟨?_, ?_⟩, ⟨?_, ?_⟩, fun m hm => ⟨?_, ?_⟩⟩
  · exact makeAuthenticatedRequest_calls net "GET" "locations" tok
      [("accountKey", .s ak), ("pageSize", .n 50)] htok
  · exact makeAuthenticatedRequest_calls net "GET" "devices" tok
      [("accountKey", .s ak), ("pageSize", .n 50)] htok
  · exact makeAuthenticatedRequest_calls net "GET" "locations" tok
      [("accountKey", .s ak), ("pageSize", .n 50)] htok
  · exact makeAuthenticatedRequest_calls net "GET" "devices" tok
      [("accountKey", .s ak), ("pageSize", .n 50)] htok
  · show (makeAuthenticatedRequest net "GET" "locations" (.supplied tok)
        (withMarker [("accountKey", .s ak), ("pageSize", .n 50)] (some m))).calls = _
    rw [show withMarker [("accountKey", PValue.s ak), ("pageSize", PValue.n 50)] (some m)
        = [("accountKey", PValue.s ak), ("pageSize", PValue.n 50), ("pageMarker", PValue.s m)] by
      simp [withMarker, hm]]
    exact makeAuthenticatedRequest_calls net "GET" "locations" tok _ htok
  · show (makeAuthenticatedRequest net "GET" "devices" (.supplied tok)
        (withMarker [("accountKey", .s ak), ("pageSize", .n 50)] (some m))).calls = _
    rw [show withMarker [("accountKey", PValue.s ak), ("pageSize", PValue.n 50)] (some m)
        = [("accountKey", PValue.s ak), ("pageSize", PValue.n 50), ("pageMarker", PValue.s m)] by
      simp [withMarker, hm]]
    exact makeAuthenticatedRequest_calls net "GET" "devices" tok _ htok

/-- C9 witness: the amended pagination contract at concrete inputs. -/
theorem c9_pagination_params_witness :
    jsonFalsy (Json.str "t") = false
    ∧ strEmpty "abc" = false
    ∧ (getLocations netDown "acct-1" (Json.str "t") none (some "abc")).calls
        = [⟨"GET", baseUrl ++ "/locations",
            [("accountKey", .s "acct-1"), ("pageSize", .n 50),
              ("pageMarker", .s "abc")]⟩] :=
  ⟨rfl, rfl,
    ((c9_pagination_params netDown "acct-1" (Json.str "t") rfl).2.2 "abc" rfl).1⟩

/-- C10: in the record the join builds for a device of a location,
missing upstream fields get the fixed defaults: location name falls back
to "Unknown Location", emergency flag to false, address to the empty
dict, and missing device id, status and licenseKey to the absent value
None. -/
theorem c10_join_record_defaults (lf df : List (String × Json))
    (hname : lookupField lf "name" = none)
    (hemerg : lookupField lf "usedForEmergencyServices" = none)
    (haddr : lookupField lf "address" = none)
    (hid : lookupField df "id" = none)
    (hstatus : lookupField df "status" = none)
    (hlic : lookupField df "licenseKey" = none) :
    (deviceInfo lf df).location_name = Json.str "Unknown Location"
    ∧ (deviceInfo lf df).used_for_emergency = Json.bool false
    ∧ (deviceInfo lf df).location_address = Json.obj []
    ∧ (deviceInfo lf df).device_id = Json.null
    ∧ (deviceInfo lf df).device_status = Json.null
    ∧ (deviceInfo lf df).license_key = Json.null := by
  simp [deviceInfo, dictGet, hname, hemerg, haddr, hid, hstatus, hlic]

/-- C10 witness: the defaults at the empty location and device dicts. -/
theorem c10_join_record_defaults_witness :
    lookupField ([] : List (String × Json)) "name" = none
    ∧ (deviceInfo [] []).location_name = Json.str "Unknown Location"
    ∧ (deviceInfo [] []).used_for_emergency = Json.bool false
    ∧ (deviceInfo [] []).device_id = Json.null :=
  ⟨rfl, (c10_join_record_defaults [] [] rfl rfl rfl rfl rfl rfl).1,
    (c10_join_record_defaults [] [] rfl rfl rfl rfl rfl rfl).2.1,
    (c10_join_record_defaults [] [] rfl rfl rfl rfl rfl rfl).2.2.2.1⟩

end GotoDeviceLocator
